import Mathlib

/-!
Verification of the VaultGuard Telegram OTP bot (`VultBaby/VultBaby_bot.py`)
as a shallow embedding.  Python strings submitted by users are lists of
characters, the per-user dictionaries `self.users` and `self.otp_codes` are
association lists keyed by the integer user id, wall-clock instants
(`datetime.now()`) are naturals supplied per event, and the draws of
`random.choices(string.digits, k=6)` are a function from position to digit
index supplied by the environment.  A Python `KeyError` is modelled as an
`Except.error` carrying the state at the moment the exception is raised,
since the partial mutations executed before the raise survive in `self`.
-/

namespace VultBaby

/-- Python `string.digits`. -/
def string_digits : List Char := ['0', '1', '2', '3', '4', '5', '6', '7', '8', '9']

/-- `OTPBot.generate_otp` (length left at its default 6): six draws from
`string.digits`, with the randomness of `random.choices` supplied as `pick`. -/
def generate_otp (pick : Nat → Fin 10) : List Char :=
  (List.range 6).map (fun i => string_digits.getD (pick i).val '0')

/-- One entry of `self.services`: display name and expiry seconds. -/
structure ServiceInfo where
  name : String
  expiry : Nat
deriving Repr, DecidableEq

/-- The `self.services` table from `OTPBot.__init__`. -/
def services : List (String × ServiceInfo) :=
  [("email_verification", ⟨"Email Verification", 300⟩),
   ("login_2fa", ⟨"2FA Login", 180⟩),
   ("password_reset", ⟨"Password Reset", 600⟩),
   ("transaction_verify", ⟨"Transaction Verification", 120⟩),
   ("account_security", ⟨"Account Security", 300⟩)]

/-- One entry of `self.otp_codes`, as stored by `generate_otp_for_service`. -/
structure OtpRec where
  code : List Char
  service : String
  service_name : String
  created_at : Nat
  expires_at : Nat
  used : Bool
deriving Repr, DecidableEq

/-- One entry of `self.users`, as stored by `OTPBot.start`. -/
structure UserRec where
  first_name : String
  last_name : Option String
  username : Option String
  registered_at : Nat
  otp_count : Nat
  verified_count : Nat
deriving Repr, DecidableEq

/-- Profile fields of the transport-level user object (`update.effective_user`). -/
structure Profile where
  first_name : String
  last_name : Option String
  username : Option String
deriving Repr, DecidableEq

/-- The mutable state of an `OTPBot` instance: the two in-memory dictionaries
plus the `users` snapshot last written to `bot_data.json` by `save_data`. -/
structure BotState where
  users : List (Nat × UserRec)
  otp_codes : List (Nat × OtpRec)
  saved_users : List (Nat × UserRec)
deriving Repr, DecidableEq

/-- Python dict assignment `d[k] = v`: the binding for `k` is replaced. -/
def dictInsert {α : Type} (k : Nat) (v : α) (d : List (Nat × α)) : List (Nat × α) :=
  (k, v) :: d.filter (fun p => p.1 != k)

/-- Python `del d[k]`. -/
def dictErase {α : Type} (k : Nat) (d : List (Nat × α)) : List (Nat × α) :=
  d.filter (fun p => p.1 != k)

/-- `OTPBot.save_data`: writes `self.users` (and a timestamp) to
`bot_data.json`; live OTPs are not persisted. -/
def save_data (s : BotState) : BotState := { s with saved_users := s.users }

/-- A Python exception escaping a handler.  The state component records the
mutations performed before the raise. -/
inductive PyError where
  | keyError (key : String) : PyError
deriving Repr, DecidableEq

/-- Which reply branch a handler took (the rendered message, abstracted). -/
inductive Outcome where
  | welcome
  | genMenu
  | servicesMenu
  | generated (code : List Char)
  | verifyInfo
  | vcNoOtp
  | vcSuccess
  | vcExpired
  | statsShown
  | helpShown
  | txtVerified
  | txtInvalidOrExpired
  | txtNoActiveOtp
  | txtNotUnderstood
  | ignored
deriving Repr, DecidableEq

instance {ε α : Type} [DecidableEq ε] [DecidableEq α] : DecidableEq (Except ε α) := fun x y =>
  match x, y with
  | .error a, .error b =>
    if h : a = b then .isTrue (by rw [h]) else .isFalse (fun hc => h (Except.error.inj hc))
  | .error _, .ok _ => .isFalse (fun hc => Except.noConfusion hc)
  | .ok _, .error _ => .isFalse (fun hc => Except.noConfusion hc)
  | .ok a, .ok b =>
    if h : a = b then .isTrue (by rw [h]) else .isFalse (fun hc => h (Except.ok.inj hc))

/-- `OTPBot.is_otp_valid`: checks presence, then code equality, then expiry;
an expired record reached with the matching code is deleted on the spot. -/
def is_otp_valid (s : BotState) (user_id : Nat) (otp : List Char) (now : Nat) :
    Bool × BotState :=
  match s.otp_codes.lookup user_id with
  | none => (false, s)
  | some otp_data =>
    if otp_data.code ≠ otp then (false, s)
    else if now > otp_data.expires_at then
      (false, { s with otp_codes := dictErase user_id s.otp_codes })
    else (true, s)

/-- `OTPBot.start`: registers the user on first contact (and saves), then
renders the welcome menu. -/
def start (s : BotState) (user_id : Nat) (p : Profile) (now : Nat) : BotState × Outcome :=
  match s.users.lookup user_id with
  | some _ => (s, .welcome)
  | none =>
    let newUser : UserRec := ⟨p.first_name, p.last_name, p.username, now, 0, 0⟩
    let s1 := { s with users := dictInsert user_id newUser s.users }
    (save_data s1, .welcome)

/-- `OTPBot.generate_otp_for_service`.  `self.services[service_id]` raises
`KeyError` for an unknown service; the fresh OTP is stored, and only then is
`self.users[user_id]` accessed (raising `KeyError` for an unregistered user
with the OTP already stored). -/
def generate_otp_for_service (s : BotState) (user_id : Nat) (service_id : String)
    (pick : Nat → Fin 10) (now : Nat) :
    Except (PyError × BotState) (BotState × Outcome) :=
  match services.lookup service_id with
  | none => .error (.keyError service_id, s)
  | some service_info =>
    let otp_code := generate_otp pick
    let rec0 : OtpRec :=
      ⟨otp_code, service_id, service_info.name, now, now + service_info.expiry, false⟩
    let s1 := { s with otp_codes := dictInsert user_id rec0 s.otp_codes }
    match s1.users.lookup user_id with
    | none => .error (.keyError (toString user_id), s1)
    | some u =>
      let u1 := { u with otp_count := u.otp_count + 1 }
      let s2 := { s1 with users := dictInsert user_id u1 s1.users }
      .ok (save_data s2, .generated otp_code)

/-- `OTPBot.verify_current_otp`: reads the stored code and feeds it back to
`is_otp_valid`; on success, `used` is set, then `self.users[user_id]` is
accessed (a `KeyError` leaves the marked record live), the counter bumped,
state saved and the record deleted. -/
def verify_current_otp (s : BotState) (user_id : Nat) (now : Nat) :
    Except (PyError × BotState) (BotState × Outcome) :=
  match s.otp_codes.lookup user_id with
  | none => .ok (s, .vcNoOtp)
  | some otp_data =>
    match is_otp_valid s user_id otp_data.code now with
    | (true, s1) =>
      let marked := { otp_data with used := true }
      let s2 := { s1 with otp_codes := dictInsert user_id marked s1.otp_codes }
      match s2.users.lookup user_id with
      | none => .error (.keyError (toString user_id), s2)
      | some u =>
        let u1 := { u with verified_count := u.verified_count + 1 }
        let s3 := { s2 with users := dictInsert user_id u1 s2.users }
        let s4 := save_data s3
        .ok ({ s4 with otp_codes := dictErase user_id s4.otp_codes }, .vcSuccess)
    | (false, s1) => .ok (s1, .vcExpired)

/-- `OTPBot.show_stats`: `self.users[user_id]` raises `KeyError` for a user
never registered; otherwise the handler only renders. -/
def show_stats (s : BotState) (user_id : Nat) :
    Except (PyError × BotState) (BotState × Outcome) :=
  match s.users.lookup user_id with
  | none => .error (.keyError (toString user_id), s)
  | some _ => .ok (s, .statsShown)

/-- Python `str.isdigit` (restricted to the ASCII fragment exercised here):
nonempty and every character a decimal digit. -/
def pyIsdigit (l : List Char) : Bool := !l.isEmpty && l.all Char.isDigit

/-- Python `str.strip()`: whitespace removed from both ends. -/
def pyStrip (l : List Char) : List Char :=
  ((l.dropWhile Char.isWhitespace).reverse.dropWhile Char.isWhitespace).reverse

/-- The guard of `handle_text_message`:
`message_text.isdigit() and len(message_text) == 6`. -/
def isOtpShaped (l : List Char) : Bool := pyIsdigit l && l.length == 6

/-- `OTPBot.handle_text_message`: strips the text; a 6-digit string is run
against the live OTP (the success path mirrors `verify_current_otp`,
including the `KeyError` on an unregistered user after `used` is set);
anything else gets the generic guidance reply. -/
def handle_text_message (s : BotState) (user_id : Nat) (text : List Char) (now : Nat) :
    Except (PyError × BotState) (BotState × Outcome) :=
  let message_text := pyStrip text
  if isOtpShaped message_text then
    match s.otp_codes.lookup user_id with
    | some _ =>
      match is_otp_valid s user_id message_text now with
      | (true, s1) =>
        match s1.otp_codes.lookup user_id with
        | none => .error (.keyError (toString user_id), s1)
        | some otp_data =>
          let marked := { otp_data with used := true }
          let s2 := { s1 with otp_codes := dictInsert user_id marked s1.otp_codes }
          match s2.users.lookup user_id with
          | none => .error (.keyError (toString user_id), s2)
          | some u =>
            let u1 := { u with verified_count := u.verified_count + 1 }
            let s3 := { s2 with users := dictInsert user_id u1 s2.users }
            let s4 := save_data s3
            .ok ({ s4 with otp_codes := dictErase user_id s4.otp_codes }, .txtVerified)
      | (false, s1) => .ok (s1, .txtInvalidOrExpired)
    | none => .ok (s, .txtNoActiveOtp)
  else .ok (s, .txtNotUnderstood)

/-- `OTPBot.button_callback`: dispatch on the opaque callback payload
(carried as its character list).  The `gen_` branch strips the
four-character marker and calls `generate_otp_for_service` with no
exception handling around it. -/
def button_callback (s : BotState) (user_id : Nat) (data : List Char) (p : Profile)
    (pick : Nat → Fin 10) (now : Nat) :
    Except (PyError × BotState) (BotState × Outcome) :=
  if data == "main".toList then .ok (start s user_id p now)
  else if data == "generate".toList then .ok (s, .genMenu)
  else if data == "verify".toList then .ok (s, .verifyInfo)
  else if data == "verify_current".toList then verify_current_otp s user_id now
  else if data == "stats".toList then show_stats s user_id
  else if data == "services".toList then .ok (s, .servicesMenu)
  else if "gen_".toList.isPrefixOf data then
    generate_otp_for_service s user_id (String.mk (data.drop 4)) pick now
  else .ok (s, .ignored)

/-- One inbound transport event, carrying the wall-clock time at which it is
processed and (for generation) the pending random draws. -/
inductive Event where
  | evStart (uid : Nat) (p : Profile) (t : Nat)
  | evGenerateCmd (uid : Nat)
  | evVerifyCmd (uid : Nat) (t : Nat)
  | evStatsCmd (uid : Nat)
  | evServicesCmd (uid : Nat)
  | evHelpCmd (uid : Nat)
  | evCallback (uid : Nat) (data : List Char) (p : Profile) (pick : Nat → Fin 10) (t : Nat)
  | evText (uid : Nat) (msg : List Char) (t : Nat)

/-- The user id a transport event is attributed to (`update.effective_user.id`). -/
def eventUid : Event → Nat
  | .evStart uid _ _ => uid
  | .evGenerateCmd uid => uid
  | .evVerifyCmd uid _ => uid
  | .evStatsCmd uid => uid
  | .evServicesCmd uid => uid
  | .evHelpCmd uid => uid
  | .evCallback uid _ _ _ _ => uid
  | .evText uid _ _ => uid

/-- Dispatch of one inbound event to its registered handler (`OTPBot.run`).
`/generate`, `/verify`, `/services` and `/help` only render. -/
def handleEvent (s : BotState) : Event → Except (PyError × BotState) (BotState × Outcome)
  | .evStart uid p t => .ok (start s uid p t)
  | .evGenerateCmd _ => .ok (s, .genMenu)
  | .evVerifyCmd _ _ => .ok (s, .verifyInfo)
  | .evStatsCmd uid => show_stats s uid
  | .evServicesCmd _ => .ok (s, .servicesMenu)
  | .evHelpCmd _ => .ok (s, .helpShown)
  | .evCallback uid data p pick t => button_callback s uid data p pick t
  | .evText uid msg t => handle_text_message s uid msg t

/-- The state left behind by a handler, whether it returned or raised: the
transport framework catches the exception and keeps polling, so the mutated
state survives into the next event. -/
def resState {α : Type} : Except (PyError × BotState) (BotState × α) → BotState
  | .error pr => pr.2
  | .ok pr => pr.1

/-- One step of the event loop. -/
def stepState (s : BotState) (e : Event) : BotState := resState (handleEvent s e)

/-- The state of a freshly started bot with no `bot_data.json` on disk. -/
def initState : BotState := ⟨[], [], []⟩

/-- States reachable from startup by any sequence of inbound events,
including events whose handler raised. -/
inductive Reachable : BotState → Prop where
  | init : Reachable initState
  | step : ∀ {s : BotState} (e : Event), Reachable s → Reachable (stepState s e)

/-- States reachable from startup by event sequences in which every handler
returned normally. -/
inductive ReachableOk : BotState → Prop where
  | init : ReachableOk initState
  | step : ∀ {s s' : BotState} {o : Outcome} (e : Event), ReachableOk s →
      handleEvent s e = .ok (s', o) → ReachableOk s'

/-! ### Concrete scenario states used by counterexamples and witnesses -/

/-- A fixed transport profile. -/
def p0 : Profile := ⟨"Alice", none, none⟩

/-- A fixed draw function: every position draws digit 0, so the code is
`"000000"`. -/
def pick0 : Nat → Fin 10 := fun _ => 0

/-- State after user 1 sends `/start` at time 0. -/
def sReg : BotState := stepState initState (.evStart 1 p0 0)

/-- State after user 1 then presses the `gen_login_2fa` button at time 0:
code `"000000"`, expiry 180. -/
def sLive : BotState := stepState sReg (.evCallback 1 "gen_login_2fa".toList p0 pick0 0)

/-- The OTP record held by user 1 in `sLive`. -/
def genRec : OtpRec := ⟨['0', '0', '0', '0', '0', '0'], "login_2fa", "2FA Login", 0, 180, false⟩

/-- The user record held by user 1 in `sLive`. -/
def uLive : UserRec := ⟨"Alice", none, none, 0, 1, 0⟩

/-- State after the never-registered user 7 presses a `gen_email_verification`
button at time 0: the OTP is stored, then `self.users[7]` raises `KeyError`,
leaving a live OTP owned by an unregistered user. -/
def sOrphan : BotState := stepState initState (.evCallback 7 "gen_email_verification".toList p0 pick0 0)

/-- The OTP record held by user 7 in `sOrphan`. -/
def orphanRec : OtpRec :=
  ⟨['0', '0', '0', '0', '0', '0'], "email_verification", "Email Verification", 0, 300, false⟩

/-- State after user 7 then texts the matching code `"000000"` at time 0:
`is_otp_valid` passes, `used` is set to `True`, and `self.users[7]` raises
`KeyError` before the `del`, leaving a used record live. -/
def sPoison : BotState := stepState sOrphan (.evText 7 ['0', '0', '0', '0', '0', '0'] 0)

/-- A draw function yielding the code `"123456"`. -/
def pick123 : Nat → Fin 10 := fun i => ⟨(i + 1) % 10, Nat.mod_lt _ (by omega)⟩

/-- Like `sLive` but generated with `pick123`, so user 1 holds code `"123456"`. -/
def sLive123 : BotState := stepState sReg (.evCallback 1 "gen_login_2fa".toList p0 pick123 0)

/-- The event in which user 1 texts the code `"000000"` at time 100. -/
def eVerify : Event := .evText 1 ['0', '0', '0', '0', '0', '0'] 100

/-! ### Derived observations used by the statements -/

/-- Keys of an association list are pairwise distinct. -/
def keysNodup {α : Type} (d : List (Nat × α)) : Prop := (d.map Prod.fst).Nodup

/-- Every live OTP record is unconsumed. -/
def allUnused (s : BotState) : Bool := s.otp_codes.all (fun q => !q.2.used)

/-- The two usage counters of a user, when registered. -/
def userCounts (s : BotState) (uid : Nat) : Option (Nat × Nat) :=
  (s.users.lookup uid).map (fun u => (u.otp_count, u.verified_count))

/-- Whether a handler run returned normally with the OTP-generated outcome. -/
def genR (r : Except (PyError × BotState) (BotState × Outcome)) : Bool :=
  match r with
  | .ok pr =>
    match pr.2 with
    | .generated _ => true
    | _ => false
  | .error _ => false

/-- Whether a handler run returned normally with a verification-success
outcome (either the button or the free-text form). -/
def succR (r : Except (PyError × BotState) (BotState × Outcome)) : Bool :=
  match r with
  | .ok pr =>
    match pr.2 with
    | .vcSuccess => true
    | .txtVerified => true
    | _ => false
  | .error _ => false

/-- Whether a handler run generated an OTP for `uid` and returned normally. -/
def genFor (uid : Nat) (e : Event) (r : Except (PyError × BotState) (BotState × Outcome)) :
    Bool :=
  eventUid e == uid && genR r

/-- Whether a handler run verified an OTP of `uid` with the success outcome. -/
def succFor (uid : Nat) (e : Event) (r : Except (PyError × BotState) (BotState × Outcome)) :
    Bool :=
  eventUid e == uid && succR r

/-- Both in-memory dictionaries bind each user id at most once. -/
def StateOk (s : BotState) : Prop := keysNodup s.users ∧ keysNodup s.otp_codes

/-! ### Association-list laws -/

theorem lookup_filterNe_self {α : Type} (k : Nat) (d : List (Nat × α)) :
    (d.filter (fun p => p.1 != k)).lookup k = none := by
  induction d with
  | nil => rfl
  | cons a t ih =>
    obtain ⟨a1, v⟩ := a
    by_cases hak : a1 = k
    · subst hak
      simpa [List.filter_cons] using ih
    · have h1 : ((a1, v).1 != k) = true := by simpa using hak
      have h2 : (k == a1) = false := by simpa using (Ne.symm hak)
      simp [List.filter_cons, h1, List.lookup, h2, ih]

theorem lookup_filterNe_ne {α : Type} {k k' : Nat} (d : List (Nat × α)) (h : k' ≠ k) :
    (d.filter (fun p => p.1 != k)).lookup k' = d.lookup k' := by
  induction d with
  | nil => rfl
  | cons a t ih =>
    obtain ⟨a1, v⟩ := a
    by_cases hak : a1 = k
    · subst hak
      have h2 : (k' == a1) = false := by simpa using h
      simp [List.filter_cons, List.lookup, h2, ih]
    · have h1 : ((a1, v).1 != k) = true := by simpa using hak
      by_cases hk' : k' = a1
      · subst hk'
        simp [List.filter_cons, h1, List.lookup]
      · have h2 : (k' == a1) = false := by simpa using hk'
        simp [List.filter_cons, h1, List.lookup, h2, ih]

theorem dictInsert_lookup_self {α : Type} (k : Nat) (v : α) (d : List (Nat × α)) :
    (dictInsert k v d).lookup k = some v := by
  simp [dictInsert, List.lookup]

theorem dictInsert_lookup_ne {α : Type} {k k' : Nat} (v : α) (d : List (Nat × α))
    (h : k' ≠ k) : (dictInsert k v d).lookup k' = d.lookup k' := by
  have h2 : (k' == k) = false := by simpa using h
  simp [dictInsert, List.lookup, h2, lookup_filterNe_ne d h]

theorem dictErase_lookup_self {α : Type} (k : Nat) (d : List (Nat × α)) :
    (dictErase k d).lookup k = none := lookup_filterNe_self k d

theorem dictErase_lookup_ne {α : Type} {k k' : Nat} (d : List (Nat × α)) (h : k' ≠ k) :
    (dictErase k d).lookup k' = d.lookup k' := lookup_filterNe_ne d h

theorem mem_dictErase {α : Type} {q : Nat × α} {k : Nat} {d : List (Nat × α)}
    (h : q ∈ dictErase k d) : q ∈ d ∧ q.1 ≠ k := by
  unfold dictErase at h
  have := List.of_mem_filter h
  exact ⟨List.mem_of_mem_filter h, by simpa using this⟩

theorem mem_dictInsert {α : Type} {q : Nat × α} {k : Nat} {v : α} {d : List (Nat × α)}
    (h : q ∈ dictInsert k v d) : q = (k, v) ∨ q ∈ d := by
  unfold dictInsert at h
  rcases List.mem_cons.mp h with h | h
  · exact Or.inl h
  · exact Or.inr (List.mem_of_mem_filter h)

theorem keysNodup_dictErase {α : Type} (k : Nat) {d : List (Nat × α)} (h : keysNodup d) :
    keysNodup (dictErase k d) :=
  List.Nodup.sublist (List.Sublist.map Prod.fst (List.filter_sublist d)) h

theorem keysNodup_dictInsert {α : Type} (k : Nat) (v : α) {d : List (Nat × α)}
    (h : keysNodup d) : keysNodup (dictInsert k v d) := by
  unfold keysNodup dictInsert
  rw [List.map_cons]
  refine List.nodup_cons.mpr ⟨?_, keysNodup_dictErase k h⟩
  intro hk
  rcases List.mem_map.mp hk with ⟨q, hq, hq1⟩
  have := (mem_dictErase (d := d) (k := k) hq).2
  exact this hq1

theorem countP_le_one_of_keysNodup {α : Type} {d : List (Nat × α)} (h : keysNodup d)
    (uid : Nat) : d.countP (fun p => p.1 == uid) ≤ 1 := by
  induction d with
  | nil => simp
  | cons a t ih =>
    unfold keysNodup at h
    rw [List.map_cons, List.nodup_cons] at h
    by_cases ha : a.1 = uid
    · have hz : t.countP (fun p => p.1 == uid) = 0 := by
        refine List.countP_eq_zero.mpr ?_
        intro q hq hqeq
        have : q.1 = uid := by simpa using hqeq
        exact h.1 (ha ▸ this ▸ List.mem_map_of_mem Prod.fst hq)
      have hcons : (a :: t).countP (fun p => p.1 == uid) =
          t.countP (fun p => p.1 == uid) + 1 := by
        rw [List.countP_cons_of_pos]
        simpa using ha
      omega
    · have hcons : (a :: t).countP (fun p => p.1 == uid) =
          t.countP (fun p => p.1 == uid) := by
        rw [List.countP_cons_of_neg]
        simpa using ha
      rw [hcons]
      exact ih h.2

/-! ### Python string facts -/

theorem isDigit_not_whitespace (c : Char) (h : c.isDigit = true) : c.isWhitespace = false := by
  cases hw : c.isWhitespace
  · rfl
  · exfalso
    simp [Char.isWhitespace] at hw
    rcases hw with ((h1 | h1) | h1) | h1 <;> subst h1 <;> exact absurd h (by decide)

theorem dropWhile_ws_of_digits {l : List Char} (h : l.all Char.isDigit = true) :
    l.dropWhile Char.isWhitespace = l := by
  cases l with
  | nil => rfl
  | cons c t =>
    have hc : c.isDigit = true := by
      have := List.all_eq_true.mp h c (List.mem_cons_self c t)
      simpa using this
    simp [List.dropWhile_cons, isDigit_not_whitespace c hc]

theorem pyStrip_digits {l : List Char} (h : l.all Char.isDigit = true) : pyStrip l = l := by
  unfold pyStrip
  rw [dropWhile_ws_of_digits h]
  rw [dropWhile_ws_of_digits (by simpa using h)]
  exact List.reverse_reverse l

theorem pyStrip_of_isOtpShaped {l : List Char} (h : isOtpShaped l = true) : pyStrip l = l := by
  have hd : l.all Char.isDigit = true := by
    cases hall : l.all Char.isDigit
    · simp [isOtpShaped, pyIsdigit, hall] at h
    · rfl
  exact pyStrip_digits hd

/-! ### `is_otp_valid` case analysis -/

theorem is_otp_valid_none {s : BotState} {uid : Nat} {otp : List Char} {now : Nat}
    (h : s.otp_codes.lookup uid = none) : is_otp_valid s uid otp now = (false, s) := by
  unfold is_otp_valid
  rw [h]

theorem is_otp_valid_mismatch {s : BotState} {uid : Nat} {otp : List Char} {now : Nat}
    {r : OtpRec} (h : s.otp_codes.lookup uid = some r) (hne : r.code ≠ otp) :
    is_otp_valid s uid otp now = (false, s) := by
  unfold is_otp_valid
  rw [h]
  simp [hne]

theorem is_otp_valid_expired {s : BotState} {uid : Nat} {otp : List Char} {now : Nat}
    {r : OtpRec} (h : s.otp_codes.lookup uid = some r) (heq : r.code = otp)
    (hexp : now > r.expires_at) :
    is_otp_valid s uid otp now =
      (false, { s with otp_codes := dictErase uid s.otp_codes }) := by
  unfold is_otp_valid
  rw [h]
  simp [heq, hexp]

theorem is_otp_valid_live {s : BotState} {uid : Nat} {otp : List Char} {now : Nat}
    {r : OtpRec} (h : s.otp_codes.lookup uid = some r) (heq : r.code = otp)
    (hle : now ≤ r.expires_at) : is_otp_valid s uid otp now = (true, s) := by
  unfold is_otp_valid
  rw [h]
  have : ¬ (now > r.expires_at) := by omega
  simp [heq, this]

/-! ### Handler case analysis -/

theorem start_registered {s : BotState} {uid : Nat} {p : Profile} {t : Nat} {u : UserRec}
    (h : s.users.lookup uid = some u) : start s uid p t = (s, .welcome) := by
  unfold start
  rw [h]

theorem start_new {s : BotState} {uid : Nat} {p : Profile} {t : Nat}
    (h : s.users.lookup uid = none) :
    start s uid p t =
      ({ users := dictInsert uid ⟨p.first_name, p.last_name, p.username, t, 0, 0⟩ s.users,
         otp_codes := s.otp_codes,
         saved_users := dictInsert uid ⟨p.first_name, p.last_name, p.username, t, 0, 0⟩ s.users },
       .welcome) := by
  unfold start
  rw [h]
  rfl

theorem generate_unknown {s : BotState} {uid : Nat} {sid : String} {pick : Nat → Fin 10}
    {t : Nat} (h : services.lookup sid = none) :
    generate_otp_for_service s uid sid pick t = .error (.keyError sid, s) := by
  unfold generate_otp_for_service
  rw [h]

theorem generate_orphan {s : BotState} {uid : Nat} {sid : String} {info : ServiceInfo}
    {pick : Nat → Fin 10} {t : Nat} (h : services.lookup sid = some info)
    (hu : s.users.lookup uid = none) :
    generate_otp_for_service s uid sid pick t =
      .error (.keyError (toString uid),
        ⟨s.users,
         dictInsert uid ⟨generate_otp pick, sid, info.name, t, t + info.expiry, false⟩
           s.otp_codes,
         s.saved_users⟩) := by
  unfold generate_otp_for_service
  rw [h]
  simp [hu]

theorem generate_ok {s : BotState} {uid : Nat} {sid : String} {info : ServiceInfo}
    {pick : Nat → Fin 10} {t : Nat} {u : UserRec} (h : services.lookup sid = some info)
    (hu : s.users.lookup uid = some u) :
    generate_otp_for_service s uid sid pick t =
      .ok ({ users := dictInsert uid { u with otp_count := u.otp_count + 1 } s.users,
             otp_codes := dictInsert uid
               ⟨generate_otp pick, sid, info.name, t, t + info.expiry, false⟩ s.otp_codes,
             saved_users := dictInsert uid { u with otp_count := u.otp_count + 1 } s.users },
           .generated (generate_otp pick)) := by
  unfold generate_otp_for_service
  rw [h]
  simp [hu, save_data]

theorem verify_current_none {s : BotState} {uid : Nat} {now : Nat}
    (h : s.otp_codes.lookup uid = none) :
    verify_current_otp s uid now = .ok (s, .vcNoOtp) := by
  unfold verify_current_otp
  rw [h]

theorem verify_current_expired {s : BotState} {uid : Nat} {now : Nat} {r : OtpRec}
    (h : s.otp_codes.lookup uid = some r) (hexp : now > r.expires_at) :
    verify_current_otp s uid now =
      .ok ({ s with otp_codes := dictErase uid s.otp_codes }, .vcExpired) := by
  unfold verify_current_otp
  simp [h, is_otp_valid_expired h rfl hexp]

theorem verify_current_orphan {s : BotState} {uid : Nat} {now : Nat} {r : OtpRec}
    (h : s.otp_codes.lookup uid = some r) (hle : now ≤ r.expires_at)
    (hu : s.users.lookup uid = none) :
    verify_current_otp s uid now =
      .error (.keyError (toString uid),
        { s with otp_codes := dictInsert uid { r with used := true } s.otp_codes }) := by
  unfold verify_current_otp
  simp [h, is_otp_valid_live h rfl hle, hu]

theorem verify_current_success {s : BotState} {uid : Nat} {now : Nat} {r : OtpRec}
    {u : UserRec} (h : s.otp_codes.lookup uid = some r) (hle : now ≤ r.expires_at)
    (hu : s.users.lookup uid = some u) :
    verify_current_otp s uid now =
      .ok ({ users := dictInsert uid { u with verified_count := u.verified_count + 1 } s.users,
             otp_codes := dictErase uid (dictInsert uid { r with used := true } s.otp_codes),
             saved_users :=
               dictInsert uid { u with verified_count := u.verified_count + 1 } s.users },
           .vcSuccess) := by
  unfold verify_current_otp
  simp [h, is_otp_valid_live h rfl hle, hu, save_data]

theorem text_notUnderstood {s : BotState} {uid : Nat} {text : List Char} {now : Nat}
    (h : isOtpShaped (pyStrip text) = false) :
    handle_text_message s uid text now = .ok (s, .txtNotUnderstood) := by
  unfold handle_text_message
  simp [h]

theorem text_noActive {s : BotState} {uid : Nat} {text : List Char} {now : Nat}
    (h6 : isOtpShaped (pyStrip text) = true) (h : s.otp_codes.lookup uid = none) :
    handle_text_message s uid text now = .ok (s, .txtNoActiveOtp) := by
  unfold handle_text_message
  simp [h6, h]

theorem text_mismatch {s : BotState} {uid : Nat} {text : List Char} {now : Nat} {r : OtpRec}
    (h6 : isOtpShaped (pyStrip text) = true) (h : s.otp_codes.lookup uid = some r)
    (hne : r.code ≠ pyStrip text) :
    handle_text_message s uid text now = .ok (s, .txtInvalidOrExpired) := by
  unfold handle_text_message
  simp [h6, h, is_otp_valid_mismatch h hne]

theorem text_expired {s : BotState} {uid : Nat} {text : List Char} {now : Nat} {r : OtpRec}
    (h6 : isOtpShaped (pyStrip text) = true) (h : s.otp_codes.lookup uid = some r)
    (heq : r.code = pyStrip text) (hexp : now > r.expires_at) :
    handle_text_message s uid text now =
      .ok ({ s with otp_codes := dictErase uid s.otp_codes }, .txtInvalidOrExpired) := by
  unfold handle_text_message
  simp [h6, h, is_otp_valid_expired h heq hexp]

theorem text_orphan {s : BotState} {uid : Nat} {text : List Char} {now : Nat} {r : OtpRec}
    (h6 : isOtpShaped (pyStrip text) = true) (h : s.otp_codes.lookup uid = some r)
    (heq : r.code = pyStrip text) (hle : now ≤ r.expires_at)
    (hu : s.users.lookup uid = none) :
    handle_text_message s uid text now =
      .error (.keyError (toString uid),
        { s with otp_codes := dictInsert uid { r with used := true } s.otp_codes }) := by
  unfold handle_text_message
  simp [h6, h, is_otp_valid_live h heq hle, hu]

theorem text_success {s : BotState} {uid : Nat} {text : List Char} {now : Nat} {r : OtpRec}
    {u : UserRec} (h6 : isOtpShaped (pyStrip text) = true)
    (h : s.otp_codes.lookup uid = some r) (heq : r.code = pyStrip text)
    (hle : now ≤ r.expires_at) (hu : s.users.lookup uid = some u) :
    handle_text_message s uid text now =
      .ok ({ users := dictInsert uid { u with verified_count := u.verified_count + 1 } s.users,
             otp_codes := dictErase uid (dictInsert uid { r with used := true } s.otp_codes),
             saved_users :=
               dictInsert uid { u with verified_count := u.verified_count + 1 } s.users },
           .txtVerified) := by
  unfold handle_text_message
  simp [h6, h, is_otp_valid_live h heq hle, hu, save_data]

/-! ### Shapes of the state left behind by each handler -/

theorem is_otp_valid_true_state {s s1 : BotState} {uid : Nat} {otp : List Char} {now : Nat}
    (h : is_otp_valid s uid otp now = (true, s1)) : s1 = s := by
  unfold is_otp_valid at h
  split at h
  · exact absurd (congrArg Prod.fst h) (by simp)
  · split at h
    · exact absurd (congrArg Prod.fst h) (by simp)
    · split at h
      · exact absurd (congrArg Prod.fst h) (by simp)
      · exact (congrArg Prod.snd h).symm

theorem is_otp_valid_false_state {s s1 : BotState} {uid : Nat} {otp : List Char} {now : Nat}
    (h : is_otp_valid s uid otp now = (false, s1)) :
    s1 = s ∨ s1 = { s with otp_codes := dictErase uid s.otp_codes } := by
  unfold is_otp_valid at h
  split at h
  · exact Or.inl (congrArg Prod.snd h).symm
  · split at h
    · exact Or.inl (congrArg Prod.snd h).symm
    · split at h
      · exact Or.inr (congrArg Prod.snd h).symm
      · exact absurd (congrArg Prod.fst h) (by simp)

theorem show_stats_state (s : BotState) (uid : Nat) : resState (show_stats s uid) = s := by
  unfold show_stats
  split <;> rfl

theorem StateOk_start {s : BotState} (uid : Nat) (p : Profile) (t : Nat) (h : StateOk s) :
    StateOk (start s uid p t).1 := by
  unfold start
  split
  · exact h
  · exact ⟨keysNodup_dictInsert _ _ h.1, h.2⟩

theorem StateOk_generate {s : BotState} (uid : Nat) (sid : String) (pick : Nat → Fin 10)
    (t : Nat) (h : StateOk s) :
    StateOk (resState (generate_otp_for_service s uid sid pick t)) := by
  cases hs : services.lookup sid with
  | none =>
    rw [generate_unknown hs]
    exact h
  | some info =>
    cases hu : s.users.lookup uid with
    | none =>
      rw [generate_orphan hs hu]
      exact ⟨h.1, keysNodup_dictInsert _ _ h.2⟩
    | some u =>
      rw [generate_ok hs hu]
      exact ⟨keysNodup_dictInsert _ _ h.1, keysNodup_dictInsert _ _ h.2⟩

theorem StateOk_verify_current {s : BotState} (uid : Nat) (now : Nat) (h : StateOk s) :
    StateOk (resState (verify_current_otp s uid now)) := by
  cases hl : s.otp_codes.lookup uid with
  | none =>
    rw [verify_current_none hl]
    exact h
  | some r =>
    by_cases hexp : now > r.expires_at
    · rw [verify_current_expired hl hexp]
      exact ⟨h.1, keysNodup_dictErase _ h.2⟩
    · have hle : now ≤ r.expires_at := by omega
      cases hu : s.users.lookup uid with
      | none =>
        rw [verify_current_orphan hl hle hu]
        exact ⟨h.1, keysNodup_dictInsert _ _ h.2⟩
      | some u =>
        rw [verify_current_success hl hle hu]
        exact ⟨keysNodup_dictInsert _ _ h.1,
          keysNodup_dictErase _ (keysNodup_dictInsert _ _ h.2)⟩

theorem StateOk_text {s : BotState} (uid : Nat) (text : List Char) (now : Nat)
    (h : StateOk s) : StateOk (resState (handle_text_message s uid text now)) := by
  by_cases h6 : isOtpShaped (pyStrip text) = true
  · cases hl : s.otp_codes.lookup uid with
    | none =>
      rw [text_noActive h6 hl]
      exact h
    | some r =>
      by_cases hc : r.code = pyStrip text
      · by_cases hexp : now > r.expires_at
        · rw [text_expired h6 hl hc hexp]
          exact ⟨h.1, keysNodup_dictErase _ h.2⟩
        · have hle : now ≤ r.expires_at := by omega
          cases hu : s.users.lookup uid with
          | none =>
            rw [text_orphan h6 hl hc hle hu]
            exact ⟨h.1, keysNodup_dictInsert _ _ h.2⟩
          | some u =>
            rw [text_success h6 hl hc hle hu]
            exact ⟨keysNodup_dictInsert _ _ h.1,
              keysNodup_dictErase _ (keysNodup_dictInsert _ _ h.2)⟩
      · rw [text_mismatch h6 hl hc]
        exact h
  · rw [text_notUnderstood (by simpa using h6)]
    exact h

theorem StateOk_step {s : BotState} (e : Event) (h : StateOk s) : StateOk (stepState s e) := by
  cases e with
  | evStart uid p t => exact StateOk_start uid p t h
  | evGenerateCmd uid => exact h
  | evVerifyCmd uid t => exact h
  | evStatsCmd uid =>
    show StateOk (resState (show_stats s uid))
    rw [show_stats_state s uid]
    exact h
  | evServicesCmd uid => exact h
  | evHelpCmd uid => exact h
  | evText uid msg t => exact StateOk_text uid msg t h
  | evCallback uid data p pick t =>
    show StateOk (resState (button_callback s uid data p pick t))
    unfold button_callback
    split
    · exact StateOk_start uid p t h
    · split
      · exact h
      · split
        · exact h
        · split
          · exact StateOk_verify_current uid t h
          · split
            · rw [show_stats_state s uid]
              exact h
            · split
              · exact h
              · split
                · exact StateOk_generate uid (String.mk (data.drop 4)) pick t h
                · exact h

theorem StateOk_reachable {s : BotState} (h : Reachable s) : StateOk s := by
  induction h with
  | init => exact ⟨List.nodup_nil, List.nodup_nil⟩
  | step e _ ih => exact StateOk_step e ih

/-! ### Preservation of the every-record-unconsumed property along normal runs -/

theorem all_dictErase {d : List (Nat × OtpRec)} {k : Nat}
    (h : d.all (fun q => !q.2.used) = true) :
    (dictErase k d).all (fun q => !q.2.used) = true := by
  rw [List.all_eq_true] at h ⊢
  intro q hq
  exact h q (mem_dictErase hq).1

theorem all_dictInsert {d : List (Nat × OtpRec)} {k : Nat} {v : OtpRec}
    (hv : v.used = false) (h : d.all (fun q => !q.2.used) = true) :
    (dictInsert k v d).all (fun q => !q.2.used) = true := by
  rw [List.all_eq_true] at h ⊢
  intro q hq
  rcases mem_dictInsert hq with h1 | h1
  · subst h1
    simp [hv]
  · exact h q h1

theorem all_erase_insert {d : List (Nat × OtpRec)} {k : Nat} {v : OtpRec}
    (h : d.all (fun q => !q.2.used) = true) :
    (dictErase k (dictInsert k v d)).all (fun q => !q.2.used) = true := by
  rw [List.all_eq_true] at h ⊢
  intro q hq
  have h2 := mem_dictErase hq
  rcases mem_dictInsert h2.1 with h1 | h1
  · exact absurd (congrArg Prod.fst h1) h2.2
  · exact h q h1

theorem start_otp_codes (s : BotState) (uid : Nat) (p : Profile) (t : Nat) :
    (start s uid p t).1.otp_codes = s.otp_codes := by
  unfold start
  split <;> rfl

theorem allUnused_start {s : BotState} {uid : Nat} {p : Profile} {t : Nat}
    (h : allUnused s = true) : allUnused (start s uid p t).1 = true := by
  unfold allUnused
  rw [start_otp_codes]
  exact h

theorem allUnused_generate_ok {s s' : BotState} {o : Outcome} {uid : Nat} {sid : String}
    {pick : Nat → Fin 10} {t : Nat} (h : allUnused s = true)
    (hok : generate_otp_for_service s uid sid pick t = .ok (s', o)) :
    allUnused s' = true := by
  cases hs : services.lookup sid with
  | none =>
    rw [generate_unknown hs] at hok
    exact Except.noConfusion hok
  | some info =>
    cases hu : s.users.lookup uid with
    | none =>
      rw [generate_orphan hs hu] at hok
      exact Except.noConfusion hok
    | some u =>
      rw [generate_ok hs hu] at hok
      simp only [Except.ok.injEq, Prod.mk.injEq] at hok
      obtain ⟨h3, h4⟩ := hok
      subst h3
      exact all_dictInsert rfl h

theorem allUnused_vc_ok {s s' : BotState} {o : Outcome} {uid : Nat} {now : Nat}
    (h : allUnused s = true) (hok : verify_current_otp s uid now = .ok (s', o)) :
    allUnused s' = true := by
  cases hl : s.otp_codes.lookup uid with
  | none =>
    rw [verify_current_none hl] at hok
    simp only [Except.ok.injEq, Prod.mk.injEq] at hok
    obtain ⟨h3, h4⟩ := hok
    subst h3
    exact h
  | some r =>
    by_cases hexp : now > r.expires_at
    · rw [verify_current_expired hl hexp] at hok
      simp only [Except.ok.injEq, Prod.mk.injEq] at hok
      obtain ⟨h3, h4⟩ := hok
      subst h3
      exact all_dictErase h
    · have hle : now ≤ r.expires_at := by omega
      cases hu : s.users.lookup uid with
      | none =>
        rw [verify_current_orphan hl hle hu] at hok
        exact Except.noConfusion hok
      | some u =>
        rw [verify_current_success hl hle hu] at hok
        simp only [Except.ok.injEq, Prod.mk.injEq] at hok
        obtain ⟨h3, h4⟩ := hok
        subst h3
        exact all_erase_insert h

theorem allUnused_text_ok {s s' : BotState} {o : Outcome} {uid : Nat} {text : List Char}
    {now : Nat} (h : allUnused s = true)
    (hok : handle_text_message s uid text now = .ok (s', o)) : allUnused s' = true := by
  by_cases h6 : isOtpShaped (pyStrip text) = true
  · cases hl : s.otp_codes.lookup uid with
    | none =>
      rw [text_noActive h6 hl] at hok
      simp only [Except.ok.injEq, Prod.mk.injEq] at hok
      obtain ⟨h3, h4⟩ := hok
      subst h3
      exact h
    | some r =>
      by_cases hc : r.code = pyStrip text
      · by_cases hexp : now > r.expires_at
        · rw [text_expired h6 hl hc hexp] at hok
          simp only [Except.ok.injEq, Prod.mk.injEq] at hok
          obtain ⟨h3, h4⟩ := hok
          subst h3
          exact all_dictErase h
        · have hle : now ≤ r.expires_at := by omega
          cases hu : s.users.lookup uid with
          | none =>
            rw [text_orphan h6 hl hc hle hu] at hok
            exact Except.noConfusion hok
          | some u =>
            rw [text_success h6 hl hc hle hu] at hok
            simp only [Except.ok.injEq, Prod.mk.injEq] at hok
            obtain ⟨h3, h4⟩ := hok
            subst h3
            exact all_erase_insert h
      · rw [text_mismatch h6 hl hc] at hok
        simp only [Except.ok.injEq, Prod.mk.injEq] at hok
        obtain ⟨h3, h4⟩ := hok
        subst h3
        exact h
  · rw [text_notUnderstood (by simpa using h6)] at hok
    simp only [Except.ok.injEq, Prod.mk.injEq] at hok
    obtain ⟨h3, h4⟩ := hok
    subst h3
    exact h

theorem show_stats_ok_state {s s' : BotState} {o : Outcome} {uid : Nat}
    (hok : show_stats s uid = .ok (s', o)) : s' = s := by
  unfold show_stats at hok
  split at hok
  · exact Except.noConfusion hok
  · exact (congrArg Prod.fst (Except.ok.inj hok)).symm

theorem allUnused_step_ok {s s' : BotState} {o : Outcome} (e : Event)
    (h : allUnused s = true) (hok : handleEvent s e = .ok (s', o)) :
    allUnused s' = true := by
  cases e with
  | evStart uid p t =>
    have h3 : (start s uid p t).1 = s' :=
      congrArg Prod.fst (Except.ok.inj hok)
    rw [← h3]
    exact allUnused_start h
  | evGenerateCmd uid =>
    have h3 : s = s' := congrArg Prod.fst (Except.ok.inj hok)
    rw [← h3]
    exact h
  | evVerifyCmd uid t =>
    have h3 : s = s' := congrArg Prod.fst (Except.ok.inj hok)
    rw [← h3]
    exact h
  | evStatsCmd uid =>
    rw [show_stats_ok_state hok]
    exact h
  | evServicesCmd uid =>
    have h3 : s = s' := congrArg Prod.fst (Except.ok.inj hok)
    rw [← h3]
    exact h
  | evHelpCmd uid =>
    have h3 : s = s' := congrArg Prod.fst (Except.ok.inj hok)
    rw [← h3]
    exact h
  | evText uid msg t => exact allUnused_text_ok h hok
  | evCallback uid data p pick t =>
    have hok' : button_callback s uid data p pick t = .ok (s', o) := hok
    unfold button_callback at hok'
    split at hok'
    · have h3 : (start s uid p t).1 = s' :=
        congrArg Prod.fst (Except.ok.inj hok')
      rw [← h3]
      exact allUnused_start h
    · split at hok'
      · have h3 : s = s' := congrArg Prod.fst (Except.ok.inj hok')
        rw [← h3]
        exact h
      · split at hok'
        · have h3 : s = s' := congrArg Prod.fst (Except.ok.inj hok')
          rw [← h3]
          exact h
        · split at hok'
          · exact allUnused_vc_ok h hok'
          · split at hok'
            · rw [show_stats_ok_state hok']
              exact h
            · split at hok'
              · have h3 : s = s' := congrArg Prod.fst (Except.ok.inj hok')
                rw [← h3]
                exact h
              · split at hok'
                · exact allUnused_generate_ok h hok'
                · have h3 : s = s' := congrArg Prod.fst (Except.ok.inj hok')
                  rw [← h3]
                  exact h

theorem allUnused_reachableOk {s : BotState} (h : ReachableOk s) : allUnused s = true := by
  induction h with
  | init => rfl
  | step e _ hok ih => exact allUnused_step_ok e ih hok

/-! ### Effect of every handler on the per-user counters -/

theorem start_outcome (s : BotState) (uid : Nat) (p : Profile) (t : Nat) :
    (start s uid p t).2 = .welcome := by
  unfold start
  split <;> rfl

theorem show_stats_none {s : BotState} {uid : Nat} (h : s.users.lookup uid = none) :
    show_stats s uid = .error (.keyError (toString uid), s) := by
  unfold show_stats
  rw [h]

theorem show_stats_some {s : BotState} {uid : Nat} {u : UserRec}
    (h : s.users.lookup uid = some u) : show_stats s uid = .ok (s, .statsShown) := by
  unfold show_stats
  rw [h]

theorem counts_render {s : BotState} {uid : Nat} {u : UserRec} (uidE : Nat) (o : Outcome)
    (h : s.users.lookup uid = some u)
    (hg : genR (.ok (s, o)) = false) (hsc : succR (.ok (s, o)) = false) :
    userCounts (resState (.ok (s, o) : Except (PyError × BotState) (BotState × Outcome))) uid =
      some (u.otp_count + cond (uidE == uid && genR (.ok (s, o))) 1 0,
            u.verified_count + cond (uidE == uid && succR (.ok (s, o))) 1 0) := by
  simp [userCounts, resState, hg, hsc, h]

theorem counts_start_res {s : BotState} (uidE : Nat) (p : Profile) (t : Nat) {uid : Nat}
    {u : UserRec} (h : s.users.lookup uid = some u) :
    userCounts
      (resState (.ok (start s uidE p t) : Except (PyError × BotState) (BotState × Outcome)))
      uid =
      some (u.otp_count + cond (uidE == uid && genR (.ok (start s uidE p t))) 1 0,
            u.verified_count + cond (uidE == uid && succR (.ok (start s uidE p t))) 1 0) := by
  have hg : genR (.ok (start s uidE p t) : Except (PyError × BotState) (BotState × Outcome)) =
      false := by
    simp only [genR, start_outcome]
  have hsc : succR (.ok (start s uidE p t) : Except (PyError × BotState) (BotState × Outcome)) =
      false := by
    simp only [succR, start_outcome]
  rw [hg, hsc]
  cases hu : s.users.lookup uidE with
  | some u2 =>
    rw [start_registered hu]
    simp [userCounts, resState, h]
  | none =>
    have hne : uid ≠ uidE := by
      intro hEq
      rw [hEq, hu] at h
      exact Option.noConfusion h
    rw [start_new hu]
    simp [userCounts, resState, dictInsert_lookup_ne _ _ hne, h]

theorem counts_stats_res {s : BotState} (uidE : Nat) {uid : Nat} {u : UserRec}
    (h : s.users.lookup uid = some u) :
    userCounts (resState (show_stats s uidE)) uid =
      some (u.otp_count + cond (uidE == uid && genR (show_stats s uidE)) 1 0,
            u.verified_count + cond (uidE == uid && succR (show_stats s uidE)) 1 0) := by
  cases hu : s.users.lookup uidE with
  | none =>
    rw [show_stats_none hu]
    simp [userCounts, resState, genR, succR, h]
  | some u2 =>
    rw [show_stats_some hu]
    simp [userCounts, resState, genR, succR, h]

theorem counts_generate_res {s : BotState} (uidE : Nat) (sid : String) (pick : Nat → Fin 10)
    (t : Nat) {uid : Nat} {u : UserRec} (h : s.users.lookup uid = some u) :
    userCounts (resState (generate_otp_for_service s uidE sid pick t)) uid =
      some (u.otp_count +
              cond (uidE == uid && genR (generate_otp_for_service s uidE sid pick t)) 1 0,
            u.verified_count +
              cond (uidE == uid && succR (generate_otp_for_service s uidE sid pick t)) 1 0) := by
  cases hs : services.lookup sid with
  | none =>
    rw [generate_unknown hs]
    simp [userCounts, resState, genR, succR, h]
  | some info =>
    cases hu : s.users.lookup uidE with
    | none =>
      rw [generate_orphan hs hu]
      simp [userCounts, resState, genR, succR, h]
    | some u2 =>
      rw [generate_ok hs hu]
      by_cases he : uidE = uid
      · subst he
        have hu2 : u2 = u := by
          rw [hu] at h
          exact Option.some.inj h
        subst hu2
        simp [userCounts, resState, genR, succR, dictInsert_lookup_self]
      · have hne : uid ≠ uidE := fun hEq => he hEq.symm
        have hbe : (uidE == uid) = false := by simpa using he
        simp [userCounts, resState, genR, succR, dictInsert_lookup_ne _ _ hne, h, hbe]

theorem counts_vc_res {s : BotState} (uidE : Nat) (now : Nat) {uid : Nat} {u : UserRec}
    (h : s.users.lookup uid = some u) :
    userCounts (resState (verify_current_otp s uidE now)) uid =
      some (u.otp_count + cond (uidE == uid && genR (verify_current_otp s uidE now)) 1 0,
            u.verified_count +
              cond (uidE == uid && succR (verify_current_otp s uidE now)) 1 0) := by
  cases hl : s.otp_codes.lookup uidE with
  | none =>
    rw [verify_current_none hl]
    simp [userCounts, resState, genR, succR, h]
  | some r =>
    by_cases hexp : now > r.expires_at
    · rw [verify_current_expired hl hexp]
      simp [userCounts, resState, genR, succR, h]
    · have hle : now ≤ r.expires_at := by omega
      cases hu : s.users.lookup uidE with
      | none =>
        rw [verify_current_orphan hl hle hu]
        simp [userCounts, resState, genR, succR, h]
      | some u2 =>
        rw [verify_current_success hl hle hu]
        by_cases he : uidE = uid
        · subst he
          have hu2 : u2 = u := by
            rw [hu] at h
            exact Option.some.inj h
          subst hu2
          simp [userCounts, resState, genR, succR, dictInsert_lookup_self]
        · have hne : uid ≠ uidE := fun hEq => he hEq.symm
          have hbe : (uidE == uid) = false := by simpa using he
          simp [userCounts, resState, genR, succR, dictInsert_lookup_ne _ _ hne, h, hbe]

theorem counts_text_res {s : BotState} (uidE : Nat) (text : List Char) (now : Nat)
    {uid : Nat} {u : UserRec} (h : s.users.lookup uid = some u) :
    userCounts (resState (handle_text_message s uidE text now)) uid =
      some (u.otp_count + cond (uidE == uid && genR (handle_text_message s uidE text now)) 1 0,
            u.verified_count +
              cond (uidE == uid && succR (handle_text_message s uidE text now)) 1 0) := by
  by_cases h6 : isOtpShaped (pyStrip text) = true
  · cases hl : s.otp_codes.lookup uidE with
    | none =>
      rw [text_noActive h6 hl]
      simp [userCounts, resState, genR, succR, h]
    | some r =>
      by_cases hc : r.code = pyStrip text
      · by_cases hexp : now > r.expires_at
        · rw [text_expired h6 hl hc hexp]
          simp [userCounts, resState, genR, succR, h]
        · have hle : now ≤ r.expires_at := by omega
          cases hu : s.users.lookup uidE with
          | none =>
            rw [text_orphan h6 hl hc hle hu]
            simp [userCounts, resState, genR, succR, h]
          | some u2 =>
            rw [text_success h6 hl hc hle hu]
            by_cases he : uidE = uid
            · subst he
              have hu2 : u2 = u := by
                rw [hu] at h
                exact Option.some.inj h
              subst hu2
              simp [userCounts, resState, genR, succR, dictInsert_lookup_self]
            · have hne : uid ≠ uidE := fun hEq => he hEq.symm
              have hbe : (uidE == uid) = false := by simpa using he
              simp [userCounts, resState, genR, succR, dictInsert_lookup_ne _ _ hne, h, hbe]
      · rw [text_mismatch h6 hl hc]
        simp [userCounts, resState, genR, succR, h]
  · rw [text_notUnderstood (by simpa using h6)]
    simp [userCounts, resState, genR, succR, h]

theorem counts_step {s : BotState} (e : Event) {uid : Nat} {u : UserRec}
    (h : s.users.lookup uid = some u) :
    userCounts (stepState s e) uid =
      some (u.otp_count + cond (genFor uid e (handleEvent s e)) 1 0,
            u.verified_count + cond (succFor uid e (handleEvent s e)) 1 0) := by
  cases e with
  | evStart uidE p t =>
    simp only [stepState, handleEvent, genFor, succFor, eventUid]
    exact counts_start_res uidE p t h
  | evGenerateCmd uidE =>
    simp only [stepState, handleEvent, genFor, succFor, eventUid]
    exact counts_render uidE .genMenu h rfl rfl
  | evVerifyCmd uidE t =>
    simp only [stepState, handleEvent, genFor, succFor, eventUid]
    exact counts_render uidE .verifyInfo h rfl rfl
  | evStatsCmd uidE =>
    simp only [stepState, handleEvent, genFor, succFor, eventUid]
    exact counts_stats_res uidE h
  | evServicesCmd uidE =>
    simp only [stepState, handleEvent, genFor, succFor, eventUid]
    exact counts_render uidE .servicesMenu h rfl rfl
  | evHelpCmd uidE =>
    simp only [stepState, handleEvent, genFor, succFor, eventUid]
    exact counts_render uidE .helpShown h rfl rfl
  | evText uidE msg t =>
    simp only [stepState, handleEvent, genFor, succFor, eventUid]
    exact counts_text_res uidE msg t h
  | evCallback uidE data p pick t =>
    simp only [stepState, handleEvent, genFor, succFor, eventUid]
    unfold button_callback
    split
    · exact counts_start_res uidE p t h
    · split
      · exact counts_render uidE .genMenu h rfl rfl
      · split
        · exact counts_render uidE .verifyInfo h rfl rfl
        · split
          · exact counts_vc_res uidE t h
          · split
            · exact counts_stats_res uidE h
            · split
              · exact counts_render uidE .servicesMenu h rfl rfl
              · split
                · exact counts_generate_res uidE (String.mk (data.drop 4)) pick t h
                · exact counts_render uidE .ignored h rfl rfl

/-! ### Shared support for the claim theorems -/

theorem generate_replaces (s : BotState) (uid : Nat) (sid : String) (info : ServiceInfo)
    (pick : Nat → Fin 10) (t : Nat) (hserv : services.lookup sid = some info) :
    (resState (generate_otp_for_service s uid sid pick t)).otp_codes.lookup uid =
      some ⟨generate_otp pick, sid, info.name, t, t + info.expiry, false⟩ := by
  cases hu : s.users.lookup uid with
  | none =>
    rw [generate_orphan hserv hu]
    exact dictInsert_lookup_self _ _ _
  | some u =>
    rw [generate_ok hserv hu]
    exact dictInsert_lookup_self _ _ _

theorem generate_otp_length (pick : Nat → Fin 10) : (generate_otp pick).length = 6 := by
  simp [generate_otp]

theorem generate_otp_digits (pick : Nat → Fin 10) :
    (generate_otp pick).all Char.isDigit = true := by
  rw [List.all_eq_true]
  intro c hc
  unfold generate_otp at hc
  rcases List.mem_map.mp hc with ⟨i, _, hi⟩
  have hall : ∀ d : Fin 10, (string_digits.getD d.val '0').isDigit = true := by decide
  rw [← hi]
  exact hall (pick i)

/-! ### The claims -/

/-- C4: in every reachable state each user holds at most one live OTP record,
and a generation request for a configured service unconditionally replaces
whatever record the user held before, leaving exactly the fresh record. -/
theorem C4_single_live_otp :
    ∀ s : BotState, Reachable s →
      (∀ uid : Nat, s.otp_codes.countP (fun q => q.1 == uid) ≤ 1) ∧
      (∀ (uid : Nat) (sid : String) (info : ServiceInfo) (pick : Nat → Fin 10) (t : Nat),
        services.lookup sid = some info →
        (resState (generate_otp_for_service s uid sid pick t)).otp_codes.lookup uid =
          some ⟨generate_otp pick, sid, info.name, t, t + info.expiry, false⟩) := by
  intro s hreach
  refine ⟨fun uid => countP_le_one_of_keysNodup (StateOk_reachable hreach).2 uid, ?_⟩
  intro uid sid info pick t hserv
  exact generate_replaces s uid sid info pick t hserv

/-- Witness for C4 at the concrete reachable state `sLive`. -/
theorem C4_witness :
    services.lookup "login_2fa" = some ⟨"2FA Login", 180⟩ ∧
    sLive.otp_codes.countP (fun q => q.1 == 1) ≤ 1 ∧
    (resState (generate_otp_for_service sLive 1 "login_2fa" pick0 5)).otp_codes.lookup 1 =
      some ⟨generate_otp pick0, "login_2fa", "2FA Login", 5, 185, false⟩ := by
  have hreach : Reachable sLive := Reachable.step _ (Reachable.step _ Reachable.init)
  have hserv : services.lookup "login_2fa" = some ⟨"2FA Login", 180⟩ := by decide
  exact ⟨hserv, (C4_single_live_otp sLive hreach).1 1,
    (C4_single_live_otp sLive hreach).2 1 "login_2fa" ⟨"2FA Login", 180⟩ pick0 5 hserv⟩

/-- C5: for a configured service, generation at time `t` stores a record whose
code is a string of exactly 6 decimal digits and whose expiry instant is
`t + expiry_seconds` with `created_at = t`. -/
theorem C5_code_shape_and_expiry :
    ∀ (s : BotState) (uid : Nat) (sid : String) (info : ServiceInfo)
      (pick : Nat → Fin 10) (t : Nat),
      services.lookup sid = some info →
      (generate_otp pick).length = 6 ∧
      (generate_otp pick).all Char.isDigit = true ∧
      (resState (generate_otp_for_service s uid sid pick t)).otp_codes.lookup uid =
        some ⟨generate_otp pick, sid, info.name, t, t + info.expiry, false⟩ := by
  intro s uid sid info pick t hserv
  exact ⟨generate_otp_length pick, generate_otp_digits pick,
    generate_replaces s uid sid info pick t hserv⟩

/-- Witness for C5 on a fresh state and the `password_reset` service. -/
theorem C5_witness :
    services.lookup "password_reset" = some ⟨"Password Reset", 600⟩ ∧
    (generate_otp pick0).length = 6 ∧
    (generate_otp pick0).all Char.isDigit = true ∧
    (resState (generate_otp_for_service initState 3 "password_reset" pick0 7)).otp_codes.lookup
      3 = some ⟨generate_otp pick0, "password_reset", "Password Reset", 7, 607, false⟩ := by
  have hserv : services.lookup "password_reset" = some ⟨"Password Reset", 600⟩ := by decide
  have h := C5_code_shape_and_expiry initState 3 "password_reset" ⟨"Password Reset", 600⟩
    pick0 7 hserv
  exact ⟨hserv, h.1, h.2.1, h.2.2⟩

/-- C3: texting the matching code of a live, unexpired OTP yields the
verified outcome, bumps `verified_count` by one, deletes the record from the
live store, persists the user table, and a second identical attempt on the
resulting state is answered with the no-active-OTP reply. -/
theorem C3_success_then_noActive :
    ∀ (s : BotState) (uid now : Nat) (r : OtpRec) (u : UserRec),
      s.otp_codes.lookup uid = some r → s.users.lookup uid = some u →
      now ≤ r.expires_at → isOtpShaped r.code = true →
      ∃ s' : BotState,
        handle_text_message s uid r.code now = .ok (s', .txtVerified) ∧
        s'.otp_codes.lookup uid = none ∧
        s'.users.lookup uid = some { u with verified_count := u.verified_count + 1 } ∧
        s'.saved_users = s'.users ∧
        handle_text_message s' uid r.code now = .ok (s', .txtNoActiveOtp) := by
  intro s uid now r u hl hu hle h6
  have hstrip : pyStrip r.code = r.code := pyStrip_of_isOtpShaped h6
  have h6s : isOtpShaped (pyStrip r.code) = true := by
    rw [hstrip]
    exact h6
  refine ⟨_, text_success h6s hl hstrip.symm hle hu, ?_, ?_, rfl, ?_⟩
  · exact dictErase_lookup_self _ _
  · exact dictInsert_lookup_self _ _ _
  · exact text_noActive h6s (dictErase_lookup_self _ _)

/-- Witness for C3 in the concrete state `sLive` at time 100. -/
theorem C3_witness :
    sLive.otp_codes.lookup 1 = some genRec ∧
    sLive.users.lookup 1 = some uLive ∧
    (100 : Nat) ≤ genRec.expires_at ∧
    isOtpShaped genRec.code = true ∧
    (∃ s' : BotState,
      handle_text_message sLive 1 genRec.code 100 = .ok (s', .txtVerified) ∧
      s'.otp_codes.lookup 1 = none ∧
      s'.users.lookup 1 = some { uLive with verified_count := uLive.verified_count + 1 } ∧
      s'.saved_users = s'.users ∧
      handle_text_message s' 1 genRec.code 100 = .ok (s', .txtNoActiveOtp)) := by
  have h1 : sLive.otp_codes.lookup 1 = some genRec := by decide
  have h2 : sLive.users.lookup 1 = some uLive := by decide
  have h3 : (100 : Nat) ≤ genRec.expires_at := by decide
  have h4 : isOtpShaped genRec.code = true := by decide
  exact ⟨h1, h2, h3, h4, C3_success_then_noActive sLive 1 100 genRec uLive h1 h2 h3 h4⟩

/-- C6: one event step turns a registered user's counter pair
`(otp_count, verified_count)` into exactly the old pair plus `(1, 0)` on a
successful generation for that user, plus `(0, 1)` on a successful
verification for that user, and plus `(0, 0)` on every other handler run, so
both counters never decrease. -/
theorem C6_counters :
    ∀ (s : BotState) (e : Event) (uid : Nat) (u : UserRec),
      s.users.lookup uid = some u →
      userCounts (stepState s e) uid =
        some (u.otp_count + cond (genFor uid e (handleEvent s e)) 1 0,
              u.verified_count + cond (succFor uid e (handleEvent s e)) 1 0) ∧
      (∀ c1 c2 : Nat, userCounts (stepState s e) uid = some (c1, c2) →
        u.otp_count ≤ c1 ∧ u.verified_count ≤ c2) := by
  intro s e uid u h
  refine ⟨counts_step e h, ?_⟩
  intro c1 c2 hc
  rw [counts_step e h] at hc
  have hpair := Option.some.inj hc
  have hc1 : u.otp_count + cond (genFor uid e (handleEvent s e)) 1 0 = c1 :=
    congrArg Prod.fst hpair
  have hc2 : u.verified_count + cond (succFor uid e (handleEvent s e)) 1 0 = c2 :=
    congrArg Prod.snd hpair
  constructor
  · cases genFor uid e (handleEvent s e) <;> simp at hc1 <;> omega
  · cases succFor uid e (handleEvent s e) <;> simp at hc2 <;> omega

/-- Witness for C6: user 1 texts the matching code in `sLive`, a successful
verification, so the counters move from `(1, 0)` to `(1, 1)`. -/
theorem C6_witness :
    sLive.users.lookup 1 = some uLive ∧
    userCounts (stepState sLive eVerify) 1 =
      some (uLive.otp_count + cond (genFor 1 eVerify (handleEvent sLive eVerify)) 1 0,
            uLive.verified_count + cond (succFor 1 eVerify (handleEvent sLive eVerify)) 1 0) ∧
    genFor 1 eVerify (handleEvent sLive eVerify) = false ∧
    succFor 1 eVerify (handleEvent sLive eVerify) = true := by
  have h : sLive.users.lookup 1 = some uLive := by decide
  exact ⟨h, (C6_counters sLive eVerify 1 uLive h).1, by decide, by decide⟩

/-- C7: submitting a well-formed 6-digit code different from the stored one,
against a live unexpired OTP, is rejected at the code-equality check: the
store-level validity check reports failure without touching the state, the
reply is the invalid-or-expired rejection, and the whole bot state (record,
counters, persisted snapshot) is exactly unchanged. -/
theorem C7_invalid_frame :
    ∀ (s : BotState) (uid now : Nat) (r : OtpRec) (c : List Char),
      s.otp_codes.lookup uid = some r → now ≤ r.expires_at →
      isOtpShaped c = true → c ≠ r.code →
      is_otp_valid s uid c now = (false, s) ∧
      handle_text_message s uid c now = .ok (s, .txtInvalidOrExpired) := by
  intro s uid now r c hl hle h6 hne
  have hstrip : pyStrip c = c := pyStrip_of_isOtpShaped h6
  have h6s : isOtpShaped (pyStrip c) = true := by
    rw [hstrip]
    exact h6
  have hne' : r.code ≠ pyStrip c := by
    rw [hstrip]
    exact fun hEq => hne hEq.symm
  constructor
  · exact is_otp_valid_mismatch hl (by rw [hstrip] at hne'; exact hne')
  · exact text_mismatch h6s hl hne'

/-- Witness for C7: the wrong code `"999999"` against `sLive` at time 100. -/
theorem C7_witness :
    sLive.otp_codes.lookup 1 = some genRec ∧
    (100 : Nat) ≤ genRec.expires_at ∧
    isOtpShaped ['9', '9', '9', '9', '9', '9'] = true ∧
    ['9', '9', '9', '9', '9', '9'] ≠ genRec.code ∧
    is_otp_valid sLive 1 ['9', '9', '9', '9', '9', '9'] 100 = (false, sLive) ∧
    handle_text_message sLive 1 ['9', '9', '9', '9', '9', '9'] 100 =
      .ok (sLive, .txtInvalidOrExpired) := by
  have h1 : sLive.otp_codes.lookup 1 = some genRec := by decide
  have h2 : (100 : Nat) ≤ genRec.expires_at := by decide
  have h3 : isOtpShaped ['9', '9', '9', '9', '9', '9'] = true := by decide
  have h4 : ['9', '9', '9', '9', '9', '9'] ≠ genRec.code := by decide
  have h := C7_invalid_frame sLive 1 100 genRec ['9', '9', '9', '9', '9', '9'] h1 h2 h3 h4
  exact ⟨h1, h2, h3, h4, h.1, h.2⟩

/-- C1 counterexample: in the reachable state `sLive` user 1 holds the OTP
`"000000"` whose expiry (180) has passed at time 200, yet the verification
attempt with the non-matching code `"999999"` does not delete the record:
the code-equality check fires before the expiry check, the reply is the
invalid-or-expired rejection with the state unchanged, and the record is
still live afterwards — contradicting the claim that any verification
attempt against an expired OTP yields Expired and deletes the record. -/
theorem C1_counterexample :
    Reachable sLive ∧
    sLive.otp_codes.lookup 1 = some genRec ∧
    200 > genRec.expires_at ∧
    handle_text_message sLive 1 ['9', '9', '9', '9', '9', '9'] 200 =
      .ok (sLive, .txtInvalidOrExpired) ∧
    (resState (handle_text_message sLive 1 ['9', '9', '9', '9', '9', '9'] 200)).otp_codes.lookup
      1 = some genRec := by
  refine ⟨Reachable.step _ (Reachable.step _ Reachable.init), by decide, by decide, ?_, ?_⟩
  · decide
  · decide

/-- C1 amended: after expiry, a verification attempt with the *stored* code —
the current-OTP button, or texting the matching code — takes the expiry
branch, deletes the record, and a subsequent attempt finds no active OTP;
an attempt with a non-matching code, by contrast, is rejected before the
expiry check and leaves the expired record in place (see the
counterexample). -/
theorem C1_expired_match_deletes :
    ∀ (s : BotState) (uid now : Nat) (r : OtpRec),
      s.otp_codes.lookup uid = some r → now > r.expires_at →
      verify_current_otp s uid now =
        .ok ({ s with otp_codes := dictErase uid s.otp_codes }, .vcExpired) ∧
      verify_current_otp { s with otp_codes := dictErase uid s.otp_codes } uid now =
        .ok ({ s with otp_codes := dictErase uid s.otp_codes }, .vcNoOtp) ∧
      (isOtpShaped r.code = true →
        handle_text_message s uid r.code now =
          .ok ({ s with otp_codes := dictErase uid s.otp_codes }, .txtInvalidOrExpired) ∧
        handle_text_message { s with otp_codes := dictErase uid s.otp_codes } uid r.code now =
          .ok ({ s with otp_codes := dictErase uid s.otp_codes }, .txtNoActiveOtp)) := by
  intro s uid now r hl hexp
  have herase : ({ s with otp_codes := dictErase uid s.otp_codes } :
      BotState).otp_codes.lookup uid = none := dictErase_lookup_self _ _
  refine ⟨verify_current_expired hl hexp, verify_current_none herase, ?_⟩
  intro h6
  have hstrip : pyStrip r.code = r.code := pyStrip_of_isOtpShaped h6
  have h6s : isOtpShaped (pyStrip r.code) = true := by
    rw [hstrip]
    exact h6
  exact ⟨text_expired h6s hl hstrip.symm hexp, text_noActive h6s herase⟩

/-- Witness for the amended C1 at `sLive` and time 200. -/
theorem C1_witness :
    sLive.otp_codes.lookup 1 = some genRec ∧
    200 > genRec.expires_at ∧
    isOtpShaped genRec.code = true ∧
    verify_current_otp sLive 1 200 =
      .ok ({ sLive with otp_codes := dictErase 1 sLive.otp_codes }, .vcExpired) ∧
    handle_text_message sLive 1 genRec.code 200 =
      .ok ({ sLive with otp_codes := dictErase 1 sLive.otp_codes }, .txtInvalidOrExpired) := by
  have h1 : sLive.otp_codes.lookup 1 = some genRec := by decide
  have h2 : 200 > genRec.expires_at := by decide
  have h3 : isOtpShaped genRec.code = true := by decide
  have h := C1_expired_match_deletes sLive 1 200 genRec h1 h2
  exact ⟨h1, h2, h3, h.1, (h.2.2 h3).1⟩

/-- C2 counterexample: a button press with payload `gen_nope` (an unknown
service) and a stats request from the never-registered user 7 both raise a
`KeyError` that escapes the handler — no user-facing message is produced and
the error propagates to the transport layer, contradicting the claim that
these Store errors are caught and rendered. -/
theorem C2_counterexample :
    handleEvent initState (.evCallback 7 "gen_nope".toList p0 pick0 0) =
      .error (.keyError "nope", initState) ∧
    handleEvent initState (.evStatsCmd 7) = .error (.keyError "7", initState) :=
  ⟨rfl, rfl⟩

/-- C2 amended: the bot has no handler-level catch at all — generation for an
unknown service id and stats for an unregistered user each raise an uncaught
`KeyError` that leaves the handler as an exception, and the callback
dispatcher forwards the generation error unhandled. -/
theorem C2_store_errors_uncaught :
    (∀ (s : BotState) (uid : Nat) (sid : String) (pick : Nat → Fin 10) (t : Nat),
      services.lookup sid = none →
      generate_otp_for_service s uid sid pick t = .error (.keyError sid, s)) ∧
    (∀ (s : BotState) (uid : Nat), s.users.lookup uid = none →
      show_stats s uid = .error (.keyError (toString uid), s)) ∧
    (∀ (s : BotState) (uid : Nat) (data : List Char) (p : Profile) (pick : Nat → Fin 10)
        (t : Nat) (sid : String),
      (data == "main".toList) = false → (data == "generate".toList) = false →
      (data == "verify".toList) = false → (data == "verify_current".toList) = false →
      (data == "stats".toList) = false → (data == "services".toList) = false →
      "gen_".toList.isPrefixOf data = true → String.mk (data.drop 4) = sid →
      services.lookup sid = none →
      button_callback s uid data p pick t = .error (.keyError sid, s)) := by
  refine ⟨fun s uid sid pick t h => generate_unknown h,
    fun s uid h => show_stats_none h, ?_⟩
  intro s uid data p pick t sid h1 h2 h3 h4 h5 h6 h7 hdrop hserv
  unfold button_callback
  rw [h1, h2, h3, h4, h5, h6, h7]
  simp only [Bool.false_eq_true, if_false, if_true]
  rw [hdrop]
  exact generate_unknown hserv

/-- Witness for the amended C2 with the concrete payload `gen_nope` and the
unregistered user 7 in the startup state. -/
theorem C2_witness :
    services.lookup "nope" = none ∧
    button_callback initState 7 "gen_nope".toList p0 pick0 0 =
      .error (.keyError "nope", initState) ∧
    initState.users.lookup 7 = none ∧
    show_stats initState 7 = .error (.keyError "7", initState) := by
  have hserv : services.lookup "nope" = none := by decide
  refine ⟨hserv, ?_, rfl, ?_⟩
  · exact C2_store_errors_uncaught.2.2 initState 7 "gen_nope".toList p0 pick0 0 "nope"
      (by decide) (by decide) (by decide) (by decide) (by decide) (by decide)
      (by decide) (by decide) hserv
  · exact C2_store_errors_uncaught.2.1 initState 7 rfl

/-- C8 counterexample: the message `" 123456 "` is not exactly 6 numeric
digits (it has 8 characters, two of them spaces), yet because the handler
strips whitespace first it is treated as a verification attempt — and in
`sLive123`, where user 1 holds code `"123456"`, it verifies successfully,
contradicting the claimed if-and-only-if on the raw text. -/
theorem C8_counterexample :
    Reachable sLive123 ∧
    pyIsdigit " 123456 ".toList = false ∧
    " 123456 ".toList.length ≠ 6 ∧
    succR (handle_text_message sLive123 1 " 123456 ".toList 100) = true := by
  refine ⟨Reachable.step _ (Reachable.step _ Reachable.init), by decide, by decide, ?_⟩
  decide

/-- C8 amended: a free-text message is answered with the generic guidance
reply (state unchanged) precisely when its whitespace-stripped form is not a
6-digit string; when the stripped form is a 6-digit string it is dispatched
as a verification attempt against the user's current OTP: no-active-OTP when
no record exists, rejection when the code mismatches or has expired, and the
success outcome on a live match for a registered user. -/
theorem C8_stripped_dispatch :
    ∀ (s : BotState) (uid now : Nat) (text : List Char),
      ((handle_text_message s uid text now = .ok (s, .txtNotUnderstood)) ↔
        isOtpShaped (pyStrip text) = false) ∧
      (isOtpShaped (pyStrip text) = true →
        (s.otp_codes.lookup uid = none →
          handle_text_message s uid text now = .ok (s, .txtNoActiveOtp)) ∧
        (∀ r : OtpRec, s.otp_codes.lookup uid = some r → r.code ≠ pyStrip text →
          handle_text_message s uid text now = .ok (s, .txtInvalidOrExpired)) ∧
        (∀ r : OtpRec, s.otp_codes.lookup uid = some r → r.code = pyStrip text →
          now > r.expires_at →
          handle_text_message s uid text now =
            .ok ({ s with otp_codes := dictErase uid s.otp_codes }, .txtInvalidOrExpired)) ∧
        (∀ (r : OtpRec) (u : UserRec), s.otp_codes.lookup uid = some r →
          r.code = pyStrip text → now ≤ r.expires_at → s.users.lookup uid = some u →
          succR (handle_text_message s uid text now) = true)) := by
  intro s uid now text
  constructor
  · constructor
    · intro hok
      by_contra hng
      have h6 : isOtpShaped (pyStrip text) = true := by
        revert hng
        cases isOtpShaped (pyStrip text) <;> simp
      cases hl : s.otp_codes.lookup uid with
      | none =>
        rw [text_noActive h6 hl] at hok
        simp at hok
      | some r =>
        by_cases hc : r.code = pyStrip text
        · by_cases hexp : now > r.expires_at
          · rw [text_expired h6 hl hc hexp] at hok
            simp at hok
          · have hle : now ≤ r.expires_at := by omega
            cases hu : s.users.lookup uid with
            | none =>
              rw [text_orphan h6 hl hc hle hu] at hok
              exact Except.noConfusion hok
            | some u =>
              rw [text_success h6 hl hc hle hu] at hok
              simp at hok
        · rw [text_mismatch h6 hl hc] at hok
          simp at hok
    · exact fun h => text_notUnderstood h
  · intro h6
    refine ⟨fun hl => text_noActive h6 hl,
      fun r hl hc => text_mismatch h6 hl hc,
      fun r hl hc hexp => text_expired h6 hl hc hexp,
      fun r u hl hc hle hu => ?_⟩
    rw [text_success h6 hl hc hle hu]
    rfl

/-- Witness for the amended C8: `" 999999 "` strips to a 6-digit string, and
in the startup state (no OTP) the verification attempt is answered with the
no-active-OTP reply; the guidance reply is reserved for non-6-digit text. -/
theorem C8_witness :
    isOtpShaped (pyStrip " 999999 ".toList) = true ∧
    initState.otp_codes.lookup 2 = none ∧
    handle_text_message initState 2 " 999999 ".toList 3 = .ok (initState, .txtNoActiveOtp) ∧
    handle_text_message initState 2 "abcdef".toList 3 = .ok (initState, .txtNotUnderstood) := by
  have h6 : isOtpShaped (pyStrip " 999999 ".toList) = true := by decide
  refine ⟨h6, rfl, ?_, ?_⟩
  · exact ((C8_stripped_dispatch initState 2 3 " 999999 ".toList).2 h6).1 rfl
  · exact (C8_stripped_dispatch initState 2 3 "abcdef".toList).1.mpr (by decide)

/-- C9 counterexample: the state `sPoison` is reachable (the unregistered
user 7 presses a generation button — the OTP is stored, then the stats
update raises — and then texts the matching code — `used` is set to `True`,
then the counter update raises before the `del`), and in it the live store
holds a record with `used = True`, contradicting the claimed invariant. -/
theorem C9_counterexample :
    Reachable sPoison ∧
    sPoison.otp_codes.lookup 7 = some { orphanRec with used := true } := by
  refine ⟨Reachable.step _ (Reachable.step _ Reachable.init), ?_⟩
  decide

/-- C9 amended: along runs in which every handler returns normally (no
`KeyError` escapes), every record in the live store has `used = False`:
records are only stored unconsumed, and the success path that sets
`used = True` deletes the record before returning.  The invariant fails only
through the exception paths exhibited in the counterexample. -/
theorem C9_every_live_record_unused :
    ∀ s : BotState, ReachableOk s → allUnused s = true :=
  fun _ h => allUnused_reachableOk h

/-- Witness for the amended C9 at the normally-reached state `sLive`. -/
theorem C9_witness : allUnused sLive = true := by
  have h1 : ReachableOk sReg :=
    ReachableOk.step (.evStart 1 p0 0) ReachableOk.init rfl
  have h2 : ReachableOk sLive :=
    ReachableOk.step (.evCallback 1 "gen_login_2fa".toList p0 pick0 0) h1 rfl
  exact C9_every_live_record_unused sLive h2

/-- C10 counterexample: in the reachable state `sOrphan` user 7 holds a
live, unexpired OTP, yet the no-argument current-OTP verification does not
succeed — it raises `KeyError` (the user is unregistered), marking the
record used on the way out — so "whenever a live, unexpired OTP exists it
always succeeds" fails as stated. -/
theorem C10_counterexample :
    Reachable sOrphan ∧
    sOrphan.otp_codes.lookup 7 = some orphanRec ∧
    (0 : Nat) ≤ orphanRec.expires_at ∧
    verify_current_otp sOrphan 7 0 =
      .error (.keyError "7",
        ⟨sOrphan.users, dictInsert 7 { orphanRec with used := true } sOrphan.otp_codes,
         sOrphan.saved_users⟩) := by
  refine ⟨Reachable.step _ Reachable.init, by decide, by decide, ?_⟩
  decide

/-- C10 amended: the no-argument current-OTP verification never produces a
code-mismatch outcome — its normal outcomes are exactly no-active-OTP,
expired, and success — and for a *registered* user with a live unexpired OTP
it always succeeds; the one remaining behaviour is the uncaught `KeyError`
for an unregistered owner shown in the counterexample. -/
theorem C10_verify_current_outcomes :
    ∀ (s : BotState) (uid now : Nat),
      (s.otp_codes.lookup uid = none →
        verify_current_otp s uid now = .ok (s, .vcNoOtp)) ∧
      (∀ r : OtpRec, s.otp_codes.lookup uid = some r → now > r.expires_at →
        verify_current_otp s uid now =
          .ok ({ s with otp_codes := dictErase uid s.otp_codes }, .vcExpired)) ∧
      (∀ (r : OtpRec) (u : UserRec), s.otp_codes.lookup uid = some r →
        now ≤ r.expires_at → s.users.lookup uid = some u →
        succR (verify_current_otp s uid now) = true) ∧
      (∀ (s' : BotState) (o : Outcome), verify_current_otp s uid now = .ok (s', o) →
        o = .vcNoOtp ∨ o = .vcExpired ∨ o = .vcSuccess) := by
  intro s uid now
  refine ⟨fun h => verify_current_none h,
    fun r hl hexp => verify_current_expired hl hexp,
    fun r u hl hle hu => ?_, ?_⟩
  · rw [verify_current_success hl hle hu]
    rfl
  · intro s' o hok
    cases hl : s.otp_codes.lookup uid with
    | none =>
      rw [verify_current_none hl] at hok
      simp only [Except.ok.injEq, Prod.mk.injEq] at hok
      exact Or.inl hok.2.symm
    | some r =>
      by_cases hexp : now > r.expires_at
      · rw [verify_current_expired hl hexp] at hok
        simp only [Except.ok.injEq, Prod.mk.injEq] at hok
        exact Or.inr (Or.inl hok.2.symm)
      · have hle : now ≤ r.expires_at := by omega
        cases hu : s.users.lookup uid with
        | none =>
          rw [verify_current_orphan hl hle hu] at hok
          exact Except.noConfusion hok
        | some u =>
          rw [verify_current_success hl hle hu] at hok
          simp only [Except.ok.injEq, Prod.mk.injEq] at hok
          exact Or.inr (Or.inr hok.2.symm)

/-- Witness for the amended C10: in `sLive` the registered user 1 holds a
live unexpired OTP and the current-OTP verification succeeds. -/
theorem C10_witness :
    sLive.otp_codes.lookup 1 = some genRec ∧
    (100 : Nat) ≤ genRec.expires_at ∧
    sLive.users.lookup 1 = some uLive ∧
    succR (verify_current_otp sLive 1 100) = true := by
  have h1 : sLive.otp_codes.lookup 1 = some genRec := by decide
  have h2 : (100 : Nat) ≤ genRec.expires_at := by decide
  have h3 : sLive.users.lookup 1 = some uLive := by decide
  exact ⟨h1, h2, h3,
    (C10_verify_current_outcomes sLive 1 100).2.2.1 genRec uLive h1 h2 h3⟩

end VultBaby
